import Mathlib

/-!
Shallow embedding of the MongoDB-statefulset autoscaler control loop,
translated from `src/autoscaler_Test.py` and `src/autoscale/autoscaler3_Test.py`.

The membership configuration, the add/remove-member operations, the
`scale_up`/`scale_down` routines and the `auto_scale` drift and steady loops
are modelled as pure functions on an explicit system state; each mutation a
routine would issue (a statefulset scale patch or a `replSetReconfig` command)
is recorded in an emitted action trace, in program order.  Python integers are
unbounded, so counts are `Int` (the membership fetch returns `-1` on failure).
-/

/-- A replica-set member as it appears in a `replSetGetConfig`/`replSetGetStatus`
member list: an `_id` and a `host` address. -/
structure Member where
  id : Int
  host : String
deriving DecidableEq, Repr

/-- The replica-set configuration document used by `autoscaler_Test.py`:
`version` and the ordered `members` list (the fields the script reads and
mutates). -/
structure MongoConfig where
  version : Int
  members : List Member
deriving DecidableEq, Repr

/-- `DNS_ADDRESS = ".mongo.default.svc.cluster.local"` (autoscaler_Test.py line 31). -/
def DNS_ADDRESS : String := ".mongo.default.svc.cluster.local"

/-- `PORT = 27017` (autoscaler_Test.py line 32). -/
def PORT : Int := 27017

/-- Host string built by `add_replica_to_mongo`:
`f"mongo-{ordinal}{DNS_ADDRESS}:{PORT}"` (autoscaler_Test.py line 71). -/
def mongoHost (ordinal : Int) : String :=
  "mongo-" ++ toString ordinal ++ DNS_ADDRESS ++ ":" ++ toString PORT

/-- The mutable globals of `autoscaler_Test.py` together with the store's
configuration: `current_k8s_replicas`, `current_mongodb_replicas`, and the
replica-set config the next `replSetGetConfig` would fetch. -/
structure SysState where
  k8s : Int
  mongoCount : Int
  cfg : MongoConfig
deriving DecidableEq, Repr

/-- A mutation issued by `autoscaler_Test.py`: a statefulset scale patch
(`patch_namespaced_stateful_set_scale`) or a `replSetReconfig` submitting the
given configuration. -/
inductive ScalerAction where
  | patchStatefulSet (n : Int)
  | reconfig (cfg : MongoConfig)
deriving DecidableEq, Repr

/-- `scale_statefulset` (autoscaler_Test.py lines 56-64): patch the declared
replica count to `n` and update the `current_k8s_replicas` global. -/
def scale_statefulset (n : Int) (s : SysState) : SysState × List ScalerAction :=
  ({ s with k8s := n }, [ScalerAction.patchStatefulSet n])

/-- `add_replica_to_mongo` (autoscaler_Test.py lines 66-82): the new member's
`_id` is the `current_mongodb_replicas` global, its host is derived from
`new_replicas_count - 1`; the member is appended to the fetched config, the
version incremented by 1, and the reconfig submitted (success path: the global
count is then incremented). -/
def add_replica_to_mongo (new_replicas_count : Int) (s : SysState) :
    SysState × List ScalerAction :=
  let new_member : Member :=
    { id := s.mongoCount, host := mongoHost (new_replicas_count - 1) }
  let newCfg : MongoConfig :=
    { version := s.cfg.version + 1, members := s.cfg.members ++ [new_member] }
  ({ s with cfg := newCfg, mongoCount := s.mongoCount + 1 },
   [ScalerAction.reconfig newCfg])

/-- `remove_last_replica_from_mongo` (autoscaler_Test.py lines 84-110): refuse
when the fetched config has at most 3 members; otherwise drop every member
whose `_id` equals the last member's `_id`, increment the version by 1, submit
the reconfig and decrement the global count. -/
def remove_last_replica_from_mongo (s : SysState) : SysState × List ScalerAction :=
  if s.cfg.members.length ≤ 3 then (s, [])
  else
    match s.cfg.members.getLast? with
    | none => (s, [])
    | some last =>
      let newCfg : MongoConfig :=
        { version := s.cfg.version + 1,
          members := s.cfg.members.filter (fun m => m.id ≠ last.id) }
      ({ s with cfg := newCfg, mongoCount := s.mongoCount - 1 },
       [ScalerAction.reconfig newCfg])

/-- `scale_up` (autoscaler_Test.py lines 112-117): scale the statefulset up
first, then add the member to the replica set. -/
def scale_up (new_replicas_count : Int) (s : SysState) : SysState × List ScalerAction :=
  let r1 := scale_statefulset new_replicas_count s
  let r2 := add_replica_to_mongo new_replicas_count r1.1
  (r2.1, r1.2 ++ r2.2)

/-- `scale_down` (autoscaler_Test.py lines 119-128): refuse a target below 3;
otherwise patch the statefulset to the target first, then remove the last
member from the replica set. -/
def scale_down (new_replicas_count : Int) (s : SysState) : SysState × List ScalerAction :=
  if new_replicas_count < 3 then (s, [])
  else
    let r1 := scale_statefulset new_replicas_count s
    let r2 := remove_last_replica_from_mongo r1.1
    (r2.1, r1.2 ++ r2.2)

/-- The value `get_mongo_replica_count` returns when `replSetGetStatus` fails
(autoscaler_Test.py line 54). -/
def get_mongo_replica_count_on_error : Int := -1

/-- One iteration of the drift loop `while current_k8s_replicas !=
current_mongodb_replicas` (autoscaler_Test.py lines 142-151): when the
orchestrator count exceeds the membership count the statefulset is patched down
to the membership count (clamped below at 3); when the membership count exceeds
the orchestrator count one member is removed. -/
def auto_scale_drift_step (s : SysState) : SysState × List ScalerAction :=
  if s.k8s = s.mongoCount then (s, [])
  else if s.k8s > s.mongoCount then
    let difference := s.k8s - s.mongoCount
    let new_k8s_replicas := s.k8s - difference
    if new_k8s_replicas ≥ 3 then scale_statefulset new_k8s_replicas s
    else scale_statefulset 3 s
  else
    remove_last_replica_from_mongo s

/-- `random_int = 0  # random.randint(0, 1)` (autoscaler_Test.py line 160): the
randomized direction selector is the constant 0. -/
def auto_scale_random_int : Int := 0

/-- One iteration of the steady `while True` loop (autoscaler_Test.py lines
158-168): selector 0 issues `scale_down(current_k8s_replicas - 1)`, selector 1
would issue `scale_up(current_k8s_replicas + 1)`. -/
def auto_scale_tick (s : SysState) : SysState × List ScalerAction :=
  if auto_scale_random_int = 0 then scale_down (s.k8s - 1) s
  else if auto_scale_random_int = 1 then scale_up (s.k8s + 1) s
  else (s, [])

/-- Run `n` iterations of the steady loop, keeping only the state. -/
def auto_scale_run : Nat → SysState → SysState
  | 0, s => s
  | n + 1, s => auto_scale_run n (auto_scale_tick s).1

/-- `PORT = 27017` (autoscaler3_Test.py line 17). -/
def as3_PORT : Int := 27017

/-- Pod address built in `auto_scale` of autoscaler3_Test.py (lines 109-110 and
119-120): `f"mongo-{ordinal}.mongo.default.svc.cluster.local:{PORT}"`. -/
def as3_replica_address (ordinal : Int) : String :=
  "mongo-" ++ toString ordinal ++ ".mongo.default.svc.cluster.local:" ++
    toString as3_PORT

/-- The document autoscaler3_Test.py passes to `replSetReconfig`, together with
the `force` keyword argument of the command. -/
structure ReconfigRequest where
  rsId : String
  version : Int
  members : List Member
  force : Bool
deriving DecidableEq, Repr

/-- `add_replica_to_mongo` of autoscaler3_Test.py (lines 53-67): renumber the
fetched status members to `_id` 0,1,2,... in order, append the new host with
`_id` equal to the member count, and submit the document with `version` fixed
at 1 and `force=True`. -/
def as3_add_replica_to_mongo (statusMembers : List Member) (new_replica : String) :
    ReconfigRequest :=
  { rsId := "rs0", version := 1, force := true,
    members :=
      (statusMembers.enum.map (fun p => { id := (p.1 : Int), host := p.2.host })) ++
        [{ id := (statusMembers.length : Int), host := new_replica }] }

/-- `remove_replica_from_mongo` of autoscaler3_Test.py (lines 70-86): drop the
members whose host matches `replica`, renumber the rest to `_id` 0,1,2,... and
submit the document with `version` fixed at 1 and `force=True`.  There is no
floor check. -/
def as3_remove_replica_from_mongo (statusMembers : List Member) (replica : String) :
    ReconfigRequest :=
  { rsId := "rs0", version := 1, force := true,
    members :=
      (statusMembers.filter (fun m => m.host ≠ replica)).enum.map
        (fun p => { id := (p.1 : Int), host := p.2.host }) }

/-- A mutation issued by autoscaler3_Test.py's loop: a statefulset scale patch
or a forced `replSetReconfig` of the given request. -/
inductive As3Action where
  | patchStatefulSet (n : Int)
  | reconfig (req : ReconfigRequest)
deriving DecidableEq, Repr

/-- The scale-down half of autoscaler3_Test.py's `auto_scale` loop (lines
118-125): first `remove_replica_from_mongo` on the address of ordinal
`new_replicas - 1`, then `scale_statefulset(max(1, new_replicas - 1))`. -/
def as3_scale_down_phase (new_replicas : Int) (statusMembers : List Member) :
    List As3Action :=
  let last_replica_address := as3_replica_address (new_replicas - 1)
  [As3Action.reconfig (as3_remove_replica_from_mongo statusMembers last_replica_address),
   As3Action.patchStatefulSet (max 1 (new_replicas - 1))]

/-- Concrete 3-member configuration used in the spec's scenario: members
`{0,host0},{1,host1},{2,host2}` at version 7. -/
def membersThree : List Member :=
  [⟨0, mongoHost 0⟩, ⟨1, mongoHost 1⟩, ⟨2, mongoHost 2⟩]

/-- The scenario configuration at version 7. -/
def cfgThree : MongoConfig := ⟨7, membersThree⟩

/-- A 4-member configuration at version 7. -/
def membersFour : List Member :=
  [⟨0, mongoHost 0⟩, ⟨1, mongoHost 1⟩, ⟨2, mongoHost 2⟩, ⟨3, mongoHost 3⟩]

/-- System state with 5 declared replicas and a 4-member replica set. -/
def sScaleDown : SysState := ⟨5, 4, ⟨7, membersFour⟩⟩

/-- Synchronized system state at the floor: 3 declared replicas, 3 members. -/
def sAtFloor : SysState := ⟨3, 3, cfgThree⟩

/-- A 5-member configuration at version 9. -/
def membersFive : List Member :=
  [⟨0, mongoHost 0⟩, ⟨1, mongoHost 1⟩, ⟨2, mongoHost 2⟩, ⟨3, mongoHost 3⟩,
   ⟨4, mongoHost 4⟩]

/-- Drift state with more declared replicas than members. -/
def sDriftUp : SysState := ⟨5, 3, cfgThree⟩

/-- Drift state with more members than declared replicas. -/
def sDriftDown : SysState := ⟨3, 5, ⟨9, membersFive⟩⟩

/-- Removing the unique member carrying id `x` from a list with no duplicate
ids shortens it by exactly one. -/
theorem length_filter_ne_id (l : List Member) (x : Int)
    (hx : x ∈ l.map Member.id) (hnd : (l.map Member.id).Nodup) :
    (l.filter (fun m => m.id ≠ x)).length = l.length - 1 := by
  induction l with
  | nil => simp at hx
  | cons a t ih =>
    rw [List.map_cons, List.nodup_cons] at hnd
    obtain ⟨hna, hndt⟩ := hnd
    rw [List.map_cons, List.mem_cons] at hx
    rcases hx with hxa | hxt
    · have hfa : (decide (a.id ≠ x)) = false := by simp [hxa]
      rw [List.filter_cons, hfa]
      have hself : t.filter (fun m => m.id ≠ x) = t := by
        rw [List.filter_eq_self]
        intro m hm
        simp only [ne_eq, decide_eq_true_eq]
        intro hmx
        exact hna (hxa ▸ hmx ▸ List.mem_map_of_mem Member.id hm)
      rw [if_neg (by simp)]
      rw [hself]
      simp
    · have hax : a.id ≠ x := by
        intro h
        exact hna (h ▸ hxt)
      have hta : (decide (a.id ≠ x)) = true := by simp [hax]
      rw [List.filter_cons, hta]
      have ht1 : 1 ≤ t.length := by
        rcases t with _ | _
        · simp at hxt
        · simp
      have hih := ih hxt hndt
      simp only [if_true, List.length_cons]
      omega

/-- The last element reported by `getLast?` is a member of the list. -/
theorem mem_of_getLast?_eq_some (l : List Member) (a : Member)
    (h : l.getLast? = some a) : a ∈ l := by
  obtain ⟨hne, heq⟩ := List.mem_getLast?_eq_getLast (Option.mem_def.mpr h)
  exact heq ▸ List.getLast_mem hne

/-- When the fetched config has more than 3 members with no duplicate ids,
`remove_last_replica_from_mongo` removes exactly one member and bumps the
version by exactly 1. -/
theorem remove_last_shrinks (s : SysState)
    (hnd : (s.cfg.members.map Member.id).Nodup)
    (hgt : 3 < s.cfg.members.length) :
    ((remove_last_replica_from_mongo s).1).cfg.members.length =
        s.cfg.members.length - 1 ∧
    ((remove_last_replica_from_mongo s).1).cfg.version = s.cfg.version + 1 := by
  unfold remove_last_replica_from_mongo
  rw [if_neg (by omega)]
  cases hgl : s.cfg.members.getLast? with
  | none =>
    rw [List.getLast?_eq_none_iff] at hgl
    rw [hgl] at hgt
    simp at hgt
  | some last =>
    have hmem := mem_of_getLast?_eq_some _ _ hgl
    have hidm := List.mem_map_of_mem Member.id hmem
    have hlen := length_filter_ne_id s.cfg.members last.id hidm hnd
    exact ⟨hlen, rfl⟩

/-- `remove_last_replica_from_mongo` never drops the member count below 3. -/
theorem remove_last_floor (s : SysState)
    (hnd : (s.cfg.members.map Member.id).Nodup)
    (h3 : 3 ≤ s.cfg.members.length) :
    3 ≤ ((remove_last_replica_from_mongo s).1).cfg.members.length := by
  by_cases hle : s.cfg.members.length ≤ 3
  · unfold remove_last_replica_from_mongo
    rw [if_pos hle]
    exact h3
  · have := (remove_last_shrinks s hnd (by omega)).1
    omega

/-- `scale_down` never drops the member count below 3. -/
theorem scale_down_floor (n : Int) (s : SysState)
    (hnd : (s.cfg.members.map Member.id).Nodup)
    (h3 : 3 ≤ s.cfg.members.length) :
    3 ≤ ((scale_down n s).1).cfg.members.length := by
  unfold scale_down
  split
  · exact h3
  · exact remove_last_floor { s with k8s := n } hnd h3

/-- At 3 declared replicas the steady-loop tick issues nothing and leaves the
state unchanged. -/
theorem auto_scale_tick_floor (s : SysState) (h : s.k8s = 3) :
    auto_scale_tick s = (s, []) := by
  unfold auto_scale_tick auto_scale_random_int scale_down
  rw [h, if_pos rfl, if_pos (by norm_num)]

/-- Claim C1: the version written by an accepted apply.  In
`autoscaler_Test.py` the add protocol does write `fetched version + 1`, but in
`autoscaler3_Test.py` both reconfigure paths write the fixed constant 1 as the
version, for every input — the code, not the claim, is at fault (the design
notes call this fixed-version behavior a correctness bug). -/
theorem C1_version_behavior :
    (∀ (ms : List Member) (r : String), (as3_add_replica_to_mongo ms r).version = 1) ∧
    (∀ (ms : List Member) (r : String), (as3_remove_replica_from_mongo ms r).version = 1) ∧
    (∀ (n : Int) (s : SysState),
      ((add_replica_to_mongo n s).1).cfg.version = s.cfg.version + 1) :=
  ⟨fun _ _ => rfl, fun _ _ => rfl, fun _ _ => rfl⟩

/-- Claim C2: stale applies and retry discipline.  `autoscaler3_Test.py`
submits every reconfigure with `force=True` (and a fixed version), so the
store's optimistic version check is bypassed and the write is a forced
overwrite for every input — the code, not the claim, is at fault. -/
theorem C2_forced_overwrite :
    (∀ (ms : List Member) (r : String), (as3_add_replica_to_mongo ms r).force = true) ∧
    (∀ (ms : List Member) (r : String), (as3_remove_replica_from_mongo ms r).force = true) :=
  ⟨fun _ _ => rfl, fun _ _ => rfl⟩

/-- Claim C3 counterexample: `remove_replica_from_mongo` of
`autoscaler3_Test.py` has no floor check — applied to a 3-member replica set
it produces a 2-member configuration, below the floor of 3. -/
theorem C3_counterexample :
    (as3_remove_replica_from_mongo membersThree (as3_replica_address 2)).members.length
      = 2 := by
  rfl

/-- Claim C3 (amended): restricted to `autoscaler_Test.py`, whose remove
protocol is floor-checked — with no duplicate member ids, a steady-loop tick
and a drift-loop iteration both keep at least 3 members. -/
theorem C3_floor_amended (s : SysState)
    (hnd : (s.cfg.members.map Member.id).Nodup)
    (h3 : 3 ≤ s.cfg.members.length) :
    3 ≤ ((auto_scale_tick s).1).cfg.members.length ∧
    3 ≤ ((auto_scale_drift_step s).1).cfg.members.length := by
  constructor
  · unfold auto_scale_tick auto_scale_random_int
    rw [if_pos rfl]
    exact scale_down_floor (s.k8s - 1) s hnd h3
  · unfold auto_scale_drift_step
    split
    · exact h3
    · split
      · dsimp only
        split
        · exact h3
        · exact h3
      · exact remove_last_floor s hnd h3

/-- Witness for C3 (amended) at a concrete 4-member state. -/
theorem C3_floor_amended_witness :
    ((sScaleDown.cfg.members.map Member.id).Nodup ∧
      3 ≤ sScaleDown.cfg.members.length) ∧
    (3 ≤ ((auto_scale_tick sScaleDown).1).cfg.members.length ∧
      3 ≤ ((auto_scale_drift_step sScaleDown).1).cfg.members.length) :=
  ⟨⟨by decide, by decide⟩, C3_floor_amended sScaleDown (by decide) (by decide)⟩

/-- Claim C4 counterexample: in `scale_down` of `autoscaler_Test.py` the
statefulset patch is emitted first and the remove-member reconfig second — the
orchestrator mutation precedes the membership mutation, not the other way
around. -/
theorem C4_counterexample :
    (scale_down 4 sScaleDown).2 =
      [ScalerAction.patchStatefulSet 4,
       ScalerAction.reconfig ⟨8, membersThree⟩] := by
  rfl

/-- Claim C4 (amended): only `autoscaler3_Test.py`'s scale-down phase removes
the member before patching the statefulset; `autoscaler_Test.py`'s
`scale_down` patches the statefulset first, its first emitted action being the
patch whenever the target passes the floor check. -/
theorem C4_order_amended (n : Int) (ms : List Member) (t : Int) (s : SysState)
    (ht : 3 ≤ t) :
    as3_scale_down_phase n ms =
      [As3Action.reconfig
        (as3_remove_replica_from_mongo ms (as3_replica_address (n - 1))),
       As3Action.patchStatefulSet (max 1 (n - 1))] ∧
    (scale_down t s).2.head? = some (ScalerAction.patchStatefulSet t) := by
  constructor
  · rfl
  · unfold scale_down
    rw [if_neg (by omega)]
    rfl

/-- Witness for C4 (amended) at concrete inputs. -/
theorem C4_order_amended_witness :
    (3 : Int) ≤ 4 ∧
    (scale_down 4 sScaleDown).2.head? = some (ScalerAction.patchStatefulSet 4) :=
  ⟨by norm_num, (C4_order_amended 4 membersFour 4 sScaleDown (by norm_num)).2⟩

/-- Claim C5 counterexample: with 5 declared replicas and 3 members, the drift
loop of `autoscaler_Test.py` patches the statefulset down to 3 and leaves the
membership untouched — it converges the orchestrator toward the membership,
the opposite of the claimed direction, and in a single jump. -/
theorem C5_counterexample :
    auto_scale_drift_step sDriftUp =
      (⟨3, 3, cfgThree⟩, [ScalerAction.patchStatefulSet 3]) := by
  rfl

/-- Claim C5 (amended): when the membership count exceeds the orchestrator
count the drift loop removes exactly one member per iteration; but when the
orchestrator count exceeds the membership count it patches the orchestrator
down to the membership count (clamped below at 3) in one jump, leaving the
membership unchanged. -/
theorem C5_drift_amended (s : SysState)
    (hnd : (s.cfg.members.map Member.id).Nodup) :
    (s.k8s > s.mongoCount →
      auto_scale_drift_step s =
        ({ s with k8s := max s.mongoCount 3 },
         [ScalerAction.patchStatefulSet (max s.mongoCount 3)])) ∧
    (s.mongoCount > s.k8s →
      auto_scale_drift_step s = remove_last_replica_from_mongo s ∧
      (3 < s.cfg.members.length →
        ((auto_scale_drift_step s).1).cfg.members.length =
            s.cfg.members.length - 1 ∧
        ((auto_scale_drift_step s).1).cfg.version = s.cfg.version + 1)) := by
  constructor
  · intro hgt
    unfold auto_scale_drift_step
    rw [if_neg (by omega), if_pos hgt]
    dsimp only
    have hd : s.k8s - (s.k8s - s.mongoCount) = s.mongoCount := by omega
    rw [hd]
    by_cases h3 : s.mongoCount ≥ 3
    · rw [if_pos h3, max_eq_left h3]
      rfl
    · rw [if_neg h3, max_eq_right (by omega)]
      rfl
  · intro hlt
    have heq : auto_scale_drift_step s = remove_last_replica_from_mongo s := by
      unfold auto_scale_drift_step
      rw [if_neg (by omega), if_neg (by omega)]
    refine ⟨heq, fun hlen => ?_⟩
    rw [heq]
    exact remove_last_shrinks s hnd hlen

/-- Witness for C5 (amended), instantiating both drift directions. -/
theorem C5_drift_amended_witness :
    (sDriftUp.k8s > sDriftUp.mongoCount ∧
      auto_scale_drift_step sDriftUp =
        ({ sDriftUp with k8s := max sDriftUp.mongoCount 3 },
         [ScalerAction.patchStatefulSet (max sDriftUp.mongoCount 3)])) ∧
    (sDriftDown.mongoCount > sDriftDown.k8s ∧
      auto_scale_drift_step sDriftDown = remove_last_replica_from_mongo sDriftDown ∧
      ((auto_scale_drift_step sDriftDown).1).cfg.members.length =
        sDriftDown.cfg.members.length - 1) :=
  ⟨⟨by decide, (C5_drift_amended sDriftUp (by decide)).1 (by decide)⟩,
   ⟨by decide, ((C5_drift_amended sDriftDown (by decide)).2 (by decide)).1,
     ((((C5_drift_amended sDriftDown (by decide)).2 (by decide)).2) (by decide)).1⟩⟩

/-- Claim C6: with at most 3 members a remove-member request is refused with
no reconfig issued and nothing mutated (the code's floor rejection), and at a
synchronized state at the floor the steady-loop tick issues neither a
statefulset patch nor a reconfig and leaves the state unchanged. -/
theorem C6_floor_rejection (s : SysState) (t : SysState)
    (hle : s.cfg.members.length ≤ 3) (hk : t.k8s = 3) (hm : t.mongoCount = 3) :
    remove_last_replica_from_mongo s = (s, []) ∧ auto_scale_tick t = (t, []) := by
  constructor
  · unfold remove_last_replica_from_mongo
    rw [if_pos hle]
  · exact auto_scale_tick_floor t hk

/-- Witness for C6 at the concrete floor state. -/
theorem C6_floor_rejection_witness :
    (sAtFloor.cfg.members.length ≤ 3 ∧ sAtFloor.k8s = 3 ∧ sAtFloor.mongoCount = 3) ∧
    (remove_last_replica_from_mongo sAtFloor = (sAtFloor, []) ∧
      auto_scale_tick sAtFloor = (sAtFloor, [])) :=
  ⟨⟨by decide, rfl, rfl⟩, C6_floor_rejection sAtFloor sAtFloor (by decide) rfl rfl⟩

/-- Claim C7 counterexample: on a fetched configuration whose member ids are
`{0, 2}` (id 1 previously removed) with the tracked count at 2, the add
protocol of `autoscaler_Test.py` assigns the new member id 2 — an id still
referenced in the configuration — instead of `max(existing ids) + 1 = 3`. -/
theorem C7_counterexample :
    ((add_replica_to_mongo 3 ⟨2, 2, ⟨5, [⟨0, mongoHost 0⟩, ⟨2, mongoHost 2⟩]⟩⟩).1).cfg.members.map
        Member.id = [0, 2, 2] := by
  rfl

/-- Claim C7 (amended): the new member id is the tracked membership count, not
`max(existing ids) + 1`; only when the count equals the member-list length and
every existing id is below that length is the new id fresh.  Existing members
are appended to unchanged (no renumbering) in this variant. -/
theorem C7_id_amended (n : Int) (s : SysState)
    (hcount : s.mongoCount = (s.cfg.members.length : Int))
    (hdense : ∀ m ∈ s.cfg.members, m.id < (s.cfg.members.length : Int)) :
    ((add_replica_to_mongo n s).1).cfg.members =
      s.cfg.members ++ [⟨(s.cfg.members.length : Int), mongoHost (n - 1)⟩] ∧
    ∀ m ∈ s.cfg.members, m.id ≠ (s.cfg.members.length : Int) := by
  constructor
  · unfold add_replica_to_mongo
    dsimp only
    rw [hcount]
  · intro m hm heq
    have := hdense m hm
    omega

/-- Witness for C7 (amended) at the concrete dense floor state. -/
theorem C7_id_amended_witness :
    (sAtFloor.mongoCount = (sAtFloor.cfg.members.length : Int) ∧
      ∀ m ∈ sAtFloor.cfg.members, m.id < (sAtFloor.cfg.members.length : Int)) ∧
    (((add_replica_to_mongo 4 sAtFloor).1).cfg.members =
        sAtFloor.cfg.members ++
          [⟨(sAtFloor.cfg.members.length : Int), mongoHost (4 - 1)⟩] ∧
      ∀ m ∈ sAtFloor.cfg.members, m.id ≠ (sAtFloor.cfg.members.length : Int)) :=
  ⟨⟨by decide, by decide⟩, C7_id_amended 4 sAtFloor (by decide) (by decide)⟩

/-- Claim C8: the spec scenario.  From the synchronized floor state with
members `{0,host0},{1,host1},{2,host2}` at version 7, the scale-up request
`scale_up(current + 1)` patches the statefulset to 4 and applies a 4-member
configuration at version 8 whose new member is `{3, host3}` with host3 derived
deterministically as `mongo-3.mongo.default.svc.cluster.local:27017`. -/
theorem C8_scale_up_scenario :
    scale_up (3 + 1) sAtFloor =
      (⟨4, 4, ⟨8, membersThree ++ [⟨3, mongoHost 3⟩]⟩⟩,
       [ScalerAction.patchStatefulSet 4,
        ScalerAction.reconfig ⟨8, membersThree ++ [⟨3, mongoHost 3⟩]⟩]) ∧
    (⟨8, membersThree ++ [⟨3, mongoHost 3⟩]⟩ : MongoConfig).members.length = 4 ∧
    mongoHost 3 = "mongo-3.mongo.default.svc.cluster.local:27017" := by
  refine ⟨rfl, rfl, ?_⟩
  rfl

/-- Claim C9 counterexample: the `-1` sentinel returned by a failed
`get_mongo_replica_count` is not validated by the caller — it flows straight
into the drift comparison, where it registers as drift and triggers a
statefulset patch down to 3 (here from 5 declared replicas). -/
theorem C9_counterexample :
    auto_scale_drift_step ⟨5, get_mongo_replica_count_on_error, cfgThree⟩ =
      (⟨3, get_mongo_replica_count_on_error, cfgThree⟩,
       [ScalerAction.patchStatefulSet 3]) := by
  rfl

/-- Claim C9 (amended): the decision logic itself is a total pure function —
it never fails, on negative inputs included — but no caller-side validation
exists: for every non-negative declared count, a failed membership fetch
(`-1`) reaches the drift decision and yields a statefulset patch to 3. -/
theorem C9_negative_reaches_decision (k : Int) (cfg : MongoConfig) (hk : 0 ≤ k) :
    auto_scale_drift_step ⟨k, get_mongo_replica_count_on_error, cfg⟩ =
      (⟨3, get_mongo_replica_count_on_error, cfg⟩,
       [ScalerAction.patchStatefulSet 3]) := by
  unfold auto_scale_drift_step get_mongo_replica_count_on_error
  dsimp only
  rw [if_neg (by omega), if_pos (by omega)]
  have h2 : k - (k - -1) = -1 := by omega
  rw [h2]
  rw [if_neg (by norm_num)]
  rfl

/-- Witness for C9 (amended) at 5 declared replicas. -/
theorem C9_negative_reaches_decision_witness :
    (0 : Int) ≤ 5 ∧
    auto_scale_drift_step ⟨5, get_mongo_replica_count_on_error, cfgThree⟩ =
      (⟨3, get_mongo_replica_count_on_error, cfgThree⟩,
       [ScalerAction.patchStatefulSet 3]) :=
  ⟨by norm_num, C9_negative_reaches_decision 5 cfgThree (by norm_num)⟩

/-- Claim C10: the steady-loop direction selector is the constant 0, every
tick is exactly the scale-down request `scale_down(current - 1)` (the scale-up
branch is never taken), and once the declared count reaches 3 a tick mutates
nothing, so any number of further iterations leaves the state unchanged. -/
theorem C10_steady_loop (s : SysState) (n : Nat) (h3 : s.k8s = 3) :
    auto_scale_random_int = 0 ∧
    (∀ t : SysState, auto_scale_tick t = scale_down (t.k8s - 1) t) ∧
    auto_scale_tick s = (s, []) ∧
    auto_scale_run n s = s := by
  refine ⟨rfl, fun t => rfl, auto_scale_tick_floor s h3, ?_⟩
  induction n with
  | zero => rfl
  | succ m ih =>
    show auto_scale_run m (auto_scale_tick s).1 = s
    rw [auto_scale_tick_floor s h3]
    exact ih

/-- Witness for C10 at the concrete floor state with 5 iterations. -/
theorem C10_steady_loop_witness :
    sAtFloor.k8s = 3 ∧
    auto_scale_tick sAtFloor = (sAtFloor, []) ∧
    auto_scale_run 5 sAtFloor = sAtFloor :=
  ⟨rfl, (C10_steady_loop sAtFloor 5 rfl).2.2.1, (C10_steady_loop sAtFloor 5 rfl).2.2.2⟩
